import Mathlib

/-!
Shallow embedding of the snow/rain particle simulation (canonical
implementation: `scripts/rain.js`, with near-duplicate variants in the
repository).  JS numbers are modelled as rationals `ℚ` except where the
source computes a square root (`Vector.magnitude` / `normalize` / drag),
which is modelled over the reals `ℝ`.  Timestamps (`Date.now()`) are
modelled as integers supplied explicitly; `Math.random()` draws are
threaded as an explicit stream of rationals in `[0, 1]`.
-/

namespace Rain

/-- A 2D vector `{x, y}` with rational components. -/
structure Vect where
  x : ℚ
  y : ℚ
deriving DecidableEq, Repr

namespace Vector

/-- Source `Vector.create(x, y)`. -/
def create (x y : ℚ) : Vect := ⟨x, y⟩

/-- Source `Vector.add(v, arg)` with a vector operand: componentwise sum. -/
def add (v w : Vect) : Vect := ⟨v.x + w.x, v.y + w.y⟩

/-- Source `Vector.divide(v, arg)` with a scalar operand: the scalar is broadcast
to both components by `__vectorize` and divided componentwise. -/
def divideS (v : Vect) (s : ℚ) : Vect := ⟨v.x / s, v.y / s⟩

/-- Source `Vector.multiply(v, arg)` with a scalar operand: the scalar is broadcast
to both components by `__vectorize` and multiplied componentwise. -/
def multiplyS (v : Vect) (s : ℚ) : Vect := ⟨v.x * s, v.y * s⟩

/-- Source `Vector.limit(v, minX, maxX, minY, maxY)`:
`v.x = Math.min(v.x, maxX); v.x = Math.max(minX, v.x)` and likewise for `y`. -/
def limit (v : Vect) (minX maxX minY maxY : ℚ) : Vect :=
  ⟨max minX (min v.x maxX), max minY (min v.y maxY)⟩

/-- Source `Vector.copy(v)`: an independent value copy (`{...v}`). -/
def copy (v : Vect) : Vect := ⟨v.x, v.y⟩

end Vector

/-- The `RainfallConfig` record. `rainfallIntensity` is documented as an
integer, `raindropTtl` is in milliseconds (an integer timestamp delta). -/
structure Config where
  width : ℚ
  height : ℚ
  fps : ℚ
  gravity : ℚ
  dragMagnitude : ℚ
  terminalVelocityRate : ℚ
  raindropTtl : ℤ
  rainfallIntensity : ℕ
  offScreenOffset : ℚ
deriving DecidableEq, Repr

/-- Source `DEFAULT_CONFIG` from `rain.js`. -/
def DEFAULT_CONFIG : Config :=
  { width := 640, height := 480, fps := 30, gravity := 4, dragMagnitude := 1/10,
    terminalVelocityRate := 10, raindropTtl := 1500, rainfallIntensity := 6,
    offScreenOffset := 200 }

/-- A raindrop record as built by `Raindrop.create`. -/
structure Drop where
  location : Vect
  acceleration : Vect
  velocity : Vect
  size : ℚ
  config : Config
  mass : ℚ
  createdAt : ℤ
  atRest : Bool
deriving DecidableEq, Repr

namespace Raindrop

/-- Source `Raindrop.create(x, y, size, config)`; `Date.now()` is passed in as `now`. -/
def create (x y size : ℚ) (config : Config) (now : ℤ) : Drop :=
  { location := Vector.create x y
    acceleration := Vector.create 0 0
    velocity := Vector.create 0 0
    size := size
    config := config
    mass := size * size
    createdAt := now
    atRest := false }

/-- Source `Raindrop.applyForce(drop, force)`: divides the force by the drop's mass
(in place on the force) and adds the result into the acceleration.  The net
effect on the drop is `acceleration += force / mass`. -/
def applyForce (drop : Drop) (force : Vect) : Drop :=
  { drop with acceleration := Vector.add drop.acceleration (Vector.divideS force drop.mass) }

/-- Source `Raindrop.update(drop)`: early rest return, then Euler integration with
terminal-velocity clamp, location clamp and acceleration reset. -/
def update (drop : Drop) : Drop :=
  if drop.atRest = true ∨ drop.location.y ≥ drop.config.height - drop.size then
    { drop with atRest := true }
  else
    let velocity1 := Vector.add drop.velocity drop.acceleration
    let c := drop.config
    let terminalV := c.terminalVelocityRate * drop.size
    let velocity2 := Vector.limit velocity1 (-terminalV) terminalV (-terminalV) terminalV
    let location1 := Vector.add drop.location velocity2
    let location2 := Vector.limit location1 (-c.offScreenOffset) (c.width + c.offScreenOffset)
      0 (c.height - drop.size)
    { drop with
      velocity := velocity2
      location := location2
      acceleration := Vector.multiplyS drop.acceleration 0 }

end Raindrop

/-- The `RainfallState` snapshot handed to a force factory: copies of the
drop's location and velocity plus its mass. -/
structure RState where
  location : Vect
  velocity : Vect
  mass : ℚ
deriving DecidableEq, Repr

/-- The snapshot built in `Rainfall.update` before invoking each factory. -/
def snapshot (drop : Drop) : RState :=
  { location := Vector.copy drop.location
    velocity := Vector.copy drop.velocity
    mass := drop.mass }

/-- Source `gravityForceFactory(config, state)`: `Vector.create(0, gravity * mass)`. -/
def gravityForceFactory (config : Config) (state : RState) : Vect :=
  Vector.create 0 (config.gravity * state.mass)

/-- A registered force factory: from configuration and state snapshot to a
force vector. -/
abbrev Factory := Config → RState → Vect

/-- The `Rainfall` system state: configuration, live drops, factories. -/
structure Rainfall where
  config : Config
  drops : List Drop
  forceFactories : List Factory

/-- Source `getRandom(min, max) = Math.round(Math.random() * (max - min) + min)`,
with the `Math.random()` draw `r` passed explicitly. -/
def getRandom (r lo hi : ℚ) : ℚ := ((round (r * (hi - lo) + lo) : ℤ) : ℚ)

/-- Source `Rainfall.__createRaindrop()`, with its three random draws explicit. -/
def createRaindrop (config : Config) (now : ℤ) (r1 r2 r3 : ℚ) : Drop :=
  let x := getRandom r1 (-config.offScreenOffset) (config.width + config.offScreenOffset)
  let y := getRandom r2 (-500) (-200)
  let size := getRandom r3 3 4
  Raindrop.create x y size config now

/-- Source `Rainfall.__createRaindropsLayer()`: pushes `rainfallIntensity` fresh
drops onto the end of the population, consuming three random draws each. -/
def createRaindropsLayer (config : Config) (now : ℤ) (ρ : ℕ → ℚ) (drops : List Drop) :
    List Drop :=
  drops ++ (List.range config.rainfallIntensity).map (fun i =>
    createRaindrop config now (ρ (3 * i)) (ρ (3 * i + 1)) (ρ (3 * i + 2)))

/-- The TTL test `Date.now() - drop.createdAt >= config.raindropTtl`. -/
def expired (config : Config) (now : ℤ) (drop : Drop) : Bool :=
  config.raindropTtl ≤ now - drop.createdAt

/-- The per-drop force-application loop of `Rainfall.update`: fold
`applyForce` with each factory's output over the registration list. -/
def applyFactories (config : Config) (factories : List Factory) (drop : Drop) : Drop :=
  factories.foldl (fun d factory => Raindrop.applyForce d (factory config (snapshot d))) drop

/-- One iteration of the scan loop of `Rainfall.update` on one drop:
expired drops are left untouched (only marked), resting drops are skipped,
active drops get every force applied and are then integrated. -/
def scanDrop (config : Config) (factories : List Factory) (now : ℤ) (drop : Drop) : Drop :=
  if expired config now drop then drop
  else if drop.atRest then drop
  else Raindrop.update (applyFactories config factories drop)

/-- Source `this.drops.splice(idx, 1)`: remove the element at index `idx`
(no-op when the index is past the end, as in JS). -/
def splice (drops : List Drop) (idx : ℕ) : List Drop :=
  drops.take idx ++ drops.drop (idx + 1)

/-- The `markedForDestruct` index list: indices of expired drops, collected
in ascending scan order.  (The scan never changes `createdAt`, so the marks
can be computed from the pre-scan list.) -/
def markedIndices (config : Config) (now : ℤ) (drops : List Drop) : List ℕ :=
  (drops.enum.filter (fun p => expired config now p.2)).map Prod.fst

/-- Source `Rainfall.update()`: spawn layer, scan (mark expired / move active),
then splice out each marked index in turn. -/
def Rainfall.update (sys : Rainfall) (now : ℤ) (ρ : ℕ → ℚ) : Rainfall :=
  let drops1 := createRaindropsLayer sys.config now ρ sys.drops
  let marked := markedIndices sys.config now drops1
  let drops2 := drops1.map (scanDrop sys.config sys.forceFactories now)
  let drops3 := marked.foldl splice drops2
  { sys with drops := drops3 }

/-! `Vector.magnitude` computes `Math.sqrt`, so magnitude, `normalize` and
the drag force are modelled over the reals. -/

/-- A 2D vector with real components, for the square-root-based operations. -/
structure RVect where
  x : ℝ
  y : ℝ

namespace RVect

/-- Source `Vector.divide` with a broadcast scalar, over `ℝ`. -/
noncomputable def divideS (v : RVect) (s : ℝ) : RVect := ⟨v.x / s, v.y / s⟩

/-- Source `Vector.multiply` with a broadcast scalar, over `ℝ`. -/
noncomputable def multiplyS (v : RVect) (s : ℝ) : RVect := ⟨v.x * s, v.y * s⟩

/-- Source `Vector.magnitude(v) = Math.sqrt(v.x * v.x + v.y * v.y)`. -/
noncomputable def magnitude (v : RVect) : ℝ := Real.sqrt (v.x * v.x + v.y * v.y)

/-- Source `Vector.normalize(v)`: divide by the magnitude unless it is zero. -/
noncomputable def normalize (v : RVect) : RVect :=
  if magnitude v ≠ 0 then divideS v (magnitude v) else v

/-- Division with an explicit zero-divisor check: `none` marks the division
the JS source would perform with divisor `0`. -/
noncomputable def divideSChecked (v : RVect) (s : ℝ) : Option RVect :=
  if s = 0 then none else some (divideS v s)

/-- Source `normalize` with its internal division checked. -/
noncomputable def normalizeChecked (v : RVect) : Option RVect :=
  if magnitude v ≠ 0 then divideSChecked v (magnitude v) else some v

end RVect

/-- The force-factory state snapshot, over `ℝ`, for the drag force. -/
structure StateR where
  location : RVect
  velocity : RVect
  mass : ℝ

/-- Source `dragForceFactory(config, state)`: speed from the velocity snapshot,
simplified drag magnitude, inverted and normalized direction. -/
noncomputable def dragForceFactory (config : Config) (state : StateR) : RVect :=
  let v := state.velocity
  let speed := RVect.magnitude v
  let dragMagnitude := (config.dragMagnitude : ℝ) * speed * speed
  RVect.multiplyS (RVect.normalize (RVect.multiplyS v (-1))) dragMagnitude

/-- Source `dragForceFactory` with the division inside `normalize` checked. -/
noncomputable def dragForceFactoryChecked (config : Config) (state : StateR) :
    Option RVect :=
  let v := state.velocity
  let speed := RVect.magnitude v
  let dragMagnitude := (config.dragMagnitude : ℝ) * speed * speed
  (RVect.normalizeChecked (RVect.multiplyS v (-1))).map
    (fun u => RVect.multiplyS u dragMagnitude)

/-! The dynamic-typing layer of `__vectorize`: an operand is an object with
`x` and `y` components, a number, or anything else (which throws). -/

/-- A JS value passed as the `arg` operand of a vector operation. -/
inductive JSArg where
  | vec (v : Vect)
  | num (n : ℚ)
  | other
deriving DecidableEq

/-- Source `__vectorize(arg)`: pass vectors through, broadcast numbers, throw
`Vector: Cannot vectorize argument.` on anything else. -/
def vectorize : JSArg → Except String Vect
  | .vec v => .ok v
  | .num n => .ok ⟨n, n⟩
  | .other => .error "Vector: Cannot vectorize argument."

/-- Source `Vector.add(v, arg)` at the dynamic level. -/
def addE (v : Vect) (arg : JSArg) : Except String Vect :=
  (vectorize arg).map (fun w => ⟨v.x + w.x, v.y + w.y⟩)

/-- Source `Vector.divide(v, arg)` at the dynamic level. -/
def divideE (v : Vect) (arg : JSArg) : Except String Vect :=
  (vectorize arg).map (fun w => ⟨v.x / w.x, v.y / w.y⟩)

/-- Source `Vector.multiply(v, arg)` at the dynamic level. -/
def multiplyE (v : Vect) (arg : JSArg) : Except String Vect :=
  (vectorize arg).map (fun w => ⟨v.x * w.x, v.y * w.y⟩)

/-- Rational scalar division with an explicit zero-divisor check. -/
def Vector.divideSChecked (v : Vect) (s : ℚ) : Option Vect :=
  if s = 0 then none else some (Vector.divideS v s)

/-- Source `Raindrop.applyForce` with its division by the mass checked. -/
def Raindrop.applyForceChecked (drop : Drop) (force : Vect) : Option Drop :=
  (Vector.divideSChecked force drop.mass).map
    (fun f => { drop with acceleration := Vector.add drop.acceleration f })

/-! A per-particle tick trace: between creation and removal, the system only
ever calls `applyForce` (with some force vector) and `update` on a drop. -/

/-- One operation the system performs on a single drop. -/
inductive TickOp where
  | applyForce (force : Vect)
  | update

/-- Run one operation on a drop. -/
def runOp (drop : Drop) : TickOp → Drop
  | .applyForce f => Raindrop.applyForce drop f
  | .update => Raindrop.update drop

/-- Run a sequence of operations on a drop, oldest first. -/
def runOps (drop : Drop) (ops : List TickOp) : Drop := ops.foldl runOp drop

/-- Source `windForceFactory` from the snow variant: a constant force
`Vector(0.07, 0)`, independent of the state snapshot. -/
def windForceFactory : Factory := fun _ _ => ⟨7/100, 0⟩

/-- Location invariant carried across a drop's lifetime: configuration and
size are fixed, and the drop is either still falling strictly above its
floor or already inside the vertical bounds `[0, height - size]`. -/
def LocInv (config : Config) (size : ℚ) (d : Drop) : Prop :=
  d.config = config ∧ d.size = size ∧
    ((d.atRest = false ∧ d.location.y < config.height - size) ∨
     (0 ≤ d.location.y ∧ d.location.y ≤ config.height - size))

/-- Velocity invariant: configuration and size are fixed and each velocity
component is within the terminal velocity in absolute value. -/
def VelInv (config : Config) (size : ℚ) (d : Drop) : Prop :=
  d.config = config ∧ d.size = size ∧
    |d.velocity.x| ≤ config.terminalVelocityRate * size ∧
    |d.velocity.y| ≤ config.terminalVelocityRate * size

/-- A configuration that spawns nothing, to watch the removal pass alone. -/
def cfgBug : Config := { DEFAULT_CONFIG with rainfallIntensity := 0 }

/-- A drop created at time 0: expired at the tick at time 1500. -/
def dropA : Drop := Raindrop.create 0 (-300) 3 cfgBug 0

/-- A second drop created at time 0: expired at the tick at time 1500. -/
def dropB : Drop := Raindrop.create 1 (-300) 3 cfgBug 0

/-- A drop created at time 1000, resting on its floor: alive (unexpired)
at the tick at time 1500, and per the lifecycle it stays in the population
until its TTL passes. -/
def dropC : Drop := { Raindrop.create 2 (-300) 3 cfgBug 1000 with atRest := true }

/-! Embedding of the two cited snow variants that diverge from the
canonical implementation: the variant whose spawn loop bound is
`i <= intensity`, and the earliest variant whose `applyForce` multiplies
the force by a mass vector instead of dividing by a scalar mass. -/

namespace Part001

/-- Configuration record of the `intensity`-keyed snow variant. -/
structure Config where
  width : ℚ
  height : ℚ
  fps : ℚ
  terminalVelocityRate : ℚ
  snowflakeTtl : ℤ
  intensity : ℕ
  offScreenOffset : ℚ
deriving DecidableEq, Repr

/-- Source `DEFAULT_CONFIG` of the `intensity`-keyed snow variant. -/
def DEFAULT_CONFIG : Config :=
  { width := 640, height := 480, fps := 30, terminalVelocityRate := 5,
    snowflakeTtl := 30000, intensity := 3, offScreenOffset := 300 }

/-- A snowflake record as built by this variant's constructor. -/
structure Snowflake where
  location : Vect
  acceleration : Vect
  velocity : Vect
  size : ℚ
  config : Config
  translucency : ℚ
  mass : ℚ
  createdAt : ℤ
  atRest : Bool
deriving DecidableEq, Repr

/-- Source `new Snowflake(x, y, size, translucency, config)` with
`mass = __calcMass() = size * size`; `Date.now()` is passed as `now`. -/
def Snowflake.create (x y size translucency : ℚ) (config : Config) (now : ℤ) :
    Snowflake :=
  { location := Vector.create x y
    acceleration := Vector.create 0 0
    velocity := Vector.create 0 0
    size := size
    config := config
    translucency := translucency
    mass := size * size
    createdAt := now
    atRest := false }

/-- Source `getRandom(min, max) = Math.random() * (max - min) + min` of
this variant (no rounding), with the draw `r` explicit. -/
def getRandom (r lo hi : ℚ) : ℚ := r * (hi - lo) + lo

/-- Source `System.__createSnowflake()` of this variant, with its four
random draws explicit (`translucency` draws from `[0.1, 1]`). -/
def createSnowflake (config : Config) (now : ℤ) (r1 r2 r3 r4 : ℚ) : Snowflake :=
  let x := getRandom r1 (config.offScreenOffset * (-1)) (config.width + config.offScreenOffset)
  let y := getRandom r2 (-500) (-200)
  let translucency := getRandom r3 (1/10) 1
  let size := getRandom r4 1 5
  Snowflake.create x y size translucency config now

/-- Source `System.__createSnowflakeLayer()` of this variant: the loop is
`for (let i = 0; i <= this.config.intensity; i++)`, so it runs
`intensity + 1` times, consuming four random draws per snowflake. -/
def createSnowflakeLayer (config : Config) (now : ℤ) (ρ : ℕ → ℚ)
    (snowflakes : List Snowflake) : List Snowflake :=
  snowflakes ++ (List.range (config.intensity + 1)).map (fun i =>
    createSnowflake config now (ρ (4 * i)) (ρ (4 * i + 1)) (ρ (4 * i + 2)) (ρ (4 * i + 3)))

end Part001

namespace Part002

/-- Configuration record of the earliest snow variant. -/
structure Config where
  width : ℚ
  height : ℚ
  fps : ℚ
  terminalVelocity : ℚ
deriving DecidableEq, Repr

/-- Source `DEFAULT_CONFIG` of the earliest snow variant. -/
def DEFAULT_CONFIG : Config :=
  { width := 640, height := 480, fps := 30, terminalVelocity := 15 }

/-- A snowflake record as built by this variant's constructor.  It has no
mass field: `mass` is a getter returning `new Vector(size, size)`. -/
structure Snowflake where
  location : Vect
  acceleration : Vect
  velocity : Vect
  size : ℚ
  config : Config
deriving DecidableEq, Repr

/-- Source `new Snowflake(x, y, size, config)` of this variant. -/
def Snowflake.create (x y size : ℚ) (config : Config) : Snowflake :=
  { location := Vector.create x y
    acceleration := Vector.create 0 0
    velocity := Vector.create 0 0
    size := size
    config := config }

/-- Source `get mass()` of this variant: the vector `(size, size)`. -/
def Snowflake.mass (sf : Snowflake) : Vect := ⟨sf.size, sf.size⟩

/-- Source `Vector.multiply(vector)` of this variant: componentwise product
with a vector operand (this variant's methods take vectors directly). -/
def multiplyV (v w : Vect) : Vect := ⟨v.x * w.x, v.y * w.y⟩

/-- Source `Snowflake.applyForce(force)` of this variant: copies the force,
multiplies the copy componentwise by the mass vector `(size, size)`, and
adds it into the acceleration. -/
def Snowflake.applyForce (sf : Snowflake) (force : Vect) : Snowflake :=
  { sf with
    acceleration := Vector.add sf.acceleration (multiplyV (Vector.copy force) sf.mass) }

end Part002

/-! Helper lemmas. -/

/-- Source `applyForce` only touches the acceleration, so the factory snapshot is
unchanged by it. -/
theorem snapshot_applyForce (d : Drop) (f : Vect) :
    snapshot (Raindrop.applyForce d f) = snapshot d := rfl

/-- Two force applications to the same drop commute. -/
theorem applyForce_comm (d : Drop) (f g : Vect) :
    Raindrop.applyForce (Raindrop.applyForce d f) g
      = Raindrop.applyForce (Raindrop.applyForce d g) f := by
  cases d
  simp only [Raindrop.applyForce, Vector.add, Vector.divideS, Drop.mk.injEq, Vect.mk.injEq]
  refine ⟨trivial, ⟨?_, ?_⟩, trivial, trivial, trivial, trivial, trivial, trivial⟩ <;> ring

/-- Source `normalizeChecked` always succeeds and agrees with `normalize`: the
division inside `normalize` is guarded by the zero-magnitude check. -/
theorem normalizeChecked_eq (u : RVect) :
    RVect.normalizeChecked u = some (RVect.normalize u) := by
  unfold RVect.normalizeChecked RVect.normalize RVect.divideSChecked
  by_cases h : RVect.magnitude u = 0 <;> simp [h]

/-- The magnitude of the zero vector is zero. -/
theorem magnitude_zero_vect : RVect.magnitude ⟨0, 0⟩ = 0 := by
  simp [RVect.magnitude]

/-- The magnitude of `(3, 4)` is `5`. -/
theorem magnitude_three_four : RVect.magnitude ⟨3, 4⟩ = 5 := by
  unfold RVect.magnitude
  rw [show (3 : ℝ) * 3 + 4 * 4 = 5 ^ 2 by norm_num]
  exact Real.sqrt_sq (by norm_num)

/-- The magnitude of `(3, 4)` is nonzero. -/
theorem magnitude_three_four_ne : RVect.magnitude ⟨3, 4⟩ ≠ 0 := by
  rw [magnitude_three_four]; norm_num

/-- Source `update` on a drop that is at rest, or that has reached its floor, only
sets the `atRest` flag. -/
theorem update_rest (d : Drop)
    (h : d.atRest = true ∨ d.location.y ≥ d.config.height - d.size) :
    Raindrop.update d = { d with atRest := true } := by
  unfold Raindrop.update
  rw [if_pos h]

/-- Source `update` on an active drop above its floor integrates: velocity clamp,
location clamp, acceleration reset. -/
theorem update_not_rest (d : Drop)
    (h : ¬(d.atRest = true ∨ d.location.y ≥ d.config.height - d.size)) :
    Raindrop.update d = { d with
      velocity := Vector.limit (Vector.add d.velocity d.acceleration)
        (-(d.config.terminalVelocityRate * d.size)) (d.config.terminalVelocityRate * d.size)
        (-(d.config.terminalVelocityRate * d.size)) (d.config.terminalVelocityRate * d.size)
      location := Vector.limit
        (Vector.add d.location
          (Vector.limit (Vector.add d.velocity d.acceleration)
            (-(d.config.terminalVelocityRate * d.size)) (d.config.terminalVelocityRate * d.size)
            (-(d.config.terminalVelocityRate * d.size)) (d.config.terminalVelocityRate * d.size)))
        (-d.config.offScreenOffset) (d.config.width + d.config.offScreenOffset)
        0 (d.config.height - d.size)
      acceleration := Vector.multiplyS d.acceleration 0 } := by
  unfold Raindrop.update
  rw [if_neg h]

/-- The `y` component produced by `limit` lies in `[minY, maxY]` whenever
that interval is nonempty. -/
theorem limit_y_mem (v : Vect) (minX maxX minY maxY : ℚ) (h : minY ≤ maxY) :
    minY ≤ (Vector.limit v minX maxX minY maxY).y ∧
      (Vector.limit v minX maxX minY maxY).y ≤ maxY := by
  unfold Vector.limit
  exact ⟨le_max_left _ _, max_le h (min_le_right _ _)⟩

/-- Both components produced by a symmetric `limit` are at most `tv` in
absolute value when `0 ≤ tv`. -/
theorem limit_abs_le (v : Vect) (tv : ℚ) (h : 0 ≤ tv) :
    |(Vector.limit v (-tv) tv (-tv) tv).x| ≤ tv ∧
      |(Vector.limit v (-tv) tv (-tv) tv).y| ≤ tv := by
  unfold Vector.limit
  constructor <;>
    exact abs_le.mpr ⟨le_max_left _ _, max_le (by linarith) (min_le_right _ _)⟩

/-- Source `applyForce` preserves the location invariant. -/
theorem locInv_applyForce {config : Config} {size : ℚ} {d : Drop} (f : Vect)
    (h : LocInv config size d) : LocInv config size (Raindrop.applyForce d f) := h

/-- Source `update` preserves the location invariant, and after `update` the
vertical location is inside `[0, height - size]`. -/
theorem locInv_update {config : Config} {size : ℚ} {d : Drop}
    (hh : 0 ≤ config.height - size) (h : LocInv config size d) :
    LocInv config size (Raindrop.update d) ∧
      0 ≤ (Raindrop.update d).location.y ∧
      (Raindrop.update d).location.y ≤ config.height - size := by
  obtain ⟨hc, hs, hd⟩ := h
  by_cases hcond : d.atRest = true ∨ d.location.y ≥ d.config.height - d.size
  · have hin : 0 ≤ d.location.y ∧ d.location.y ≤ config.height - size := by
      rcases hd with ⟨hrest, hlt⟩ | hin
      · rcases hcond with hr | hge
        · rw [hrest] at hr
          simp at hr
        · rw [hc, hs] at hge
          exact absurd hlt (not_lt.mpr hge)
      · exact hin
    rw [update_rest d hcond]
    exact ⟨⟨hc, hs, Or.inr hin⟩, hin⟩
  · rw [update_not_rest d hcond, hc, hs]
    have hmem := limit_y_mem
      (Vector.add d.location
        (Vector.limit (Vector.add d.velocity d.acceleration)
          (-(config.terminalVelocityRate * size)) (config.terminalVelocityRate * size)
          (-(config.terminalVelocityRate * size)) (config.terminalVelocityRate * size)))
      (-config.offScreenOffset) (config.width + config.offScreenOffset)
      0 (config.height - size) hh
    exact ⟨⟨rfl, rfl, Or.inr hmem⟩, hmem⟩

/-- Source `update` preserves the velocity invariant. -/
theorem velInv_update {config : Config} {size : ℚ} {d : Drop}
    (ht : 0 ≤ config.terminalVelocityRate * size) (h : VelInv config size d) :
    VelInv config size (Raindrop.update d) := by
  obtain ⟨hc, hs, hx, hy⟩ := h
  by_cases hcond : d.atRest = true ∨ d.location.y ≥ d.config.height - d.size
  · rw [update_rest d hcond]
    exact ⟨hc, hs, hx, hy⟩
  · rw [update_not_rest d hcond, hc, hs]
    exact ⟨rfl, rfl, (limit_abs_le _ _ ht).1, (limit_abs_le _ _ ht).2⟩

/-- The default height leaves room for a size-3 drop. -/
theorem hyp_height_three : (0 : ℚ) ≤ DEFAULT_CONFIG.height - 3 := by
  norm_num [DEFAULT_CONFIG]

/-- A concrete spawn-band bound. -/
theorem hyp_neg500_le : (-500 : ℚ) ≤ -350 := by norm_num

/-- A concrete spawn-band bound. -/
theorem hyp_le_neg200 : (-350 : ℚ) ≤ -200 := by norm_num

/-- The default terminal velocity of a size-3 drop is nonnegative. -/
theorem hyp_tv_three : (0 : ℚ) ≤ DEFAULT_CONFIG.terminalVelocityRate * 3 := by
  norm_num [DEFAULT_CONFIG]

/-- A numeric operand is not the non-vectorizable value. -/
theorem hyp_num_ne_other : JSArg.num 3 ≠ JSArg.other := by
  intro h
  exact JSArg.noConfusion h

/-- A concrete random draw is within `[0, 1]`. -/
theorem hyp_half_nonneg : (0 : ℚ) ≤ 1/2 := by norm_num

/-- A concrete random draw is within `[0, 1]`. -/
theorem hyp_half_le_one : (1/2 : ℚ) ≤ 1 := by norm_num

/-! Claim theorems. -/

/-- C1: the claim fails on the code.  At the tick at `now = 1500` with
`ttl = 1500`, drops A and B (created at 0) are expired and drop C (created
at 1000, so `now - t0 = 500 < ttl`) is alive; the claim demands that the
resulting population contain exactly the updated drop C.  Instead the
stale-index `splice` cascade leaves the expired drop B in the population
and removes the live drop C. -/
theorem c1_splice_removal_bug :
    expired cfgBug 1500 dropA = true ∧
    expired cfgBug 1500 dropB = true ∧
    expired cfgBug 1500 dropC = false ∧
    (Rainfall.update ⟨cfgBug, [dropA, dropB, dropC], []⟩ 1500 (fun _ => 0)).drops
      = [dropB] := by
  exact ⟨rfl, rfl, rfl, rfl⟩

/-- C2 counterexample: one spawn tick of the `i <= intensity` variant on an
empty population, with its shipped configuration (`intensity = 3`), yields
4 snowflakes — not exactly `intensity`. -/
theorem c2_counterexample :
    (Part001.createSnowflakeLayer Part001.DEFAULT_CONFIG 0 (fun _ => 0) []).length = 4 ∧
    (Part001.createSnowflakeLayer Part001.DEFAULT_CONFIG 0 (fun _ => 0) []).length
      ≠ Part001.DEFAULT_CONFIG.intensity := by
  constructor <;> simp [Part001.createSnowflakeLayer, Part001.DEFAULT_CONFIG]

/-- C2 (amended): the canonical `rain.js` spawn layer appends exactly
`rainfallIntensity` fresh drops to the end of the population (it runs first
in `Rainfall.update`, before the scan and before any removal); the snow
variant whose loop bound is `i <= intensity` instead appends exactly
`intensity + 1` fresh snowflakes per tick. -/
theorem c2_spawn_exactly_intensity :
    (∀ (config : Config) (now : ℤ) (ρ : ℕ → ℚ) (drops : List Drop),
      (createRaindropsLayer config now ρ drops).length
          = drops.length + config.rainfallIntensity ∧
      ∃ fresh : List Drop,
        createRaindropsLayer config now ρ drops = drops ++ fresh ∧
        fresh.length = config.rainfallIntensity) ∧
    (∀ (config : Part001.Config) (now : ℤ) (ρ : ℕ → ℚ)
        (snowflakes : List Part001.Snowflake),
      (Part001.createSnowflakeLayer config now ρ snowflakes).length
          = snowflakes.length + (config.intensity + 1) ∧
      ∃ fresh : List Part001.Snowflake,
        Part001.createSnowflakeLayer config now ρ snowflakes = snowflakes ++ fresh ∧
        fresh.length = config.intensity + 1) := by
  constructor
  · intro config now ρ drops
    refine ⟨?_, ⟨_, rfl, ?_⟩⟩ <;> simp [createRaindropsLayer]
  · intro config now ρ snowflakes
    refine ⟨?_, ⟨_, rfl, ?_⟩⟩ <;> simp [Part001.createSnowflakeLayer]

/-- C3 counterexample: in the earliest snow variant, a size-2 snowflake
receiving the force `(0, 8)` gains acceleration `(0, 16)` — the force is
multiplied componentwise by the mass vector `(size, size)`, not divided by
the mass — so the cited `Snowflake.applyForce` refutes the claimed
`(0, 2)`. -/
theorem c3_counterexample :
    (Part002.Snowflake.applyForce (Part002.Snowflake.create 0 0 2 Part002.DEFAULT_CONFIG)
        ⟨0, 8⟩).acceleration ≠ ⟨0, 2⟩ := by
  simp only [Part002.Snowflake.applyForce, Part002.Snowflake.create, Part002.Snowflake.mass,
    Part002.multiplyV, Vector.copy, Vector.add, Vector.create, ne_eq, Vect.mk.injEq, not_and]
  intro _
  norm_num

/-- C3 (amended): the canonical `applyForce` adds the incoming force
divided by the scalar mass into the acceleration and changes no other
field, and for a particle of size 2 (hence mass 4) the force `(0, 8)` adds
exactly `(0, 2)`; the earliest snow variant's `applyForce` instead adds the
force multiplied componentwise by the mass vector `(size, size)` (changing
no other field either), so the same scenario there adds `(0, 16)`. -/
theorem c3_applyForce_newton :
    ((∀ (d : Drop) (f : Vect),
      (Raindrop.applyForce d f).acceleration
          = Vector.add d.acceleration (Vector.divideS f d.mass) ∧
      (Raindrop.applyForce d f).location = d.location ∧
      (Raindrop.applyForce d f).velocity = d.velocity ∧
      (Raindrop.applyForce d f).size = d.size ∧
      (Raindrop.applyForce d f).mass = d.mass ∧
      (Raindrop.applyForce d f).createdAt = d.createdAt ∧
      (Raindrop.applyForce d f).atRest = d.atRest ∧
      (Raindrop.applyForce d f).config = d.config) ∧
    (Raindrop.applyForce (Raindrop.create 0 0 2 DEFAULT_CONFIG 0) ⟨0, 8⟩).acceleration
      = ⟨0, 2⟩) ∧
    ((∀ (sf : Part002.Snowflake) (f : Vect),
      (Part002.Snowflake.applyForce sf f).acceleration
          = ⟨sf.acceleration.x + f.x * sf.size, sf.acceleration.y + f.y * sf.size⟩ ∧
      (Part002.Snowflake.applyForce sf f).location = sf.location ∧
      (Part002.Snowflake.applyForce sf f).velocity = sf.velocity ∧
      (Part002.Snowflake.applyForce sf f).size = sf.size ∧
      (Part002.Snowflake.applyForce sf f).config = sf.config) ∧
    (Part002.Snowflake.applyForce (Part002.Snowflake.create 0 0 2 Part002.DEFAULT_CONFIG)
        ⟨0, 8⟩).acceleration = ⟨0, 16⟩) := by
  refine ⟨⟨fun d f => ⟨rfl, rfl, rfl, rfl, rfl, rfl, rfl, rfl⟩, ?_⟩,
    ⟨fun sf f => ⟨rfl, rfl, rfl, rfl, rfl⟩, ?_⟩⟩
  · simp only [Raindrop.applyForce, Raindrop.create, Vector.add, Vector.divideS, Vector.create,
      Vect.mk.injEq]
    norm_num
  · simp only [Part002.Snowflake.applyForce, Part002.Snowflake.create, Part002.Snowflake.mass,
      Part002.multiplyV, Vector.copy, Vector.add, Vector.create, Vect.mk.injEq]
    norm_num

/-- C5: a drop whose `atRest` flag is set is a fixed point of `update`:
any number of further `update` calls leaves every field (location,
velocity, acceleration, and `atRest` itself) unchanged. -/
theorem c5_atRest_is_frozen (d : Drop) (h : d.atRest = true) :
    ∀ n : ℕ, Raindrop.update^[n] d = d := by
  have h1 : Raindrop.update d = d := by
    unfold Raindrop.update
    rw [if_pos (Or.inl h)]
    cases d
    simp_all
  exact fun n => Function.iterate_fixed h1 n

/-- C5 witness: a concrete resting drop is unchanged by two updates. -/
theorem c5_witness :
    Raindrop.update^[2] { Raindrop.create 0 0 3 DEFAULT_CONFIG 0 with atRest := true }
      = { Raindrop.create 0 0 3 DEFAULT_CONFIG 0 with atRest := true } :=
  c5_atRest_is_frozen _ rfl 2

/-- C4: a spawned drop (vertical spawn band `[-500, -200]`, zero initial
velocity and acceleration) satisfies `0 ≤ location.y ≤ height - size` after
every `update`, whatever forces were applied in between — including the
very first `update` after spawn. -/
theorem c4_spawned_location_bounds (config : Config) (x y size : ℚ) (now : ℤ)
    (hh : 0 ≤ config.height - size) (_hy1 : -500 ≤ y) (hy2 : y ≤ -200)
    (ops : List TickOp) :
    0 ≤ (runOps (Raindrop.create x y size config now) (ops ++ [TickOp.update])).location.y ∧
      (runOps (Raindrop.create x y size config now) (ops ++ [TickOp.update])).location.y
        ≤ config.height - size := by
  have hbase : LocInv config size (Raindrop.create x y size config now) := by
    refine ⟨rfl, rfl, Or.inl ⟨rfl, ?_⟩⟩
    show y < config.height - size
    linarith
  have hind : ∀ (l : List TickOp) (d : Drop), LocInv config size d →
      LocInv config size (runOps d l) := by
    intro l
    induction l with
    | nil => exact fun d h => h
    | cons op rest ih =>
        intro d h
        cases op with
        | applyForce f => exact ih _ (locInv_applyForce f h)
        | update => exact ih _ (locInv_update hh h).1
  have hlast : runOps (Raindrop.create x y size config now) (ops ++ [TickOp.update])
      = Raindrop.update (runOps (Raindrop.create x y size config now) ops) := by
    simp [runOps, List.foldl_append, runOp]
  rw [hlast]
  exact (locInv_update hh (hind ops _ hbase)).2

/-- C4 witness: concrete spawned drop, default configuration, first update. -/
theorem c4_witness :
    0 ≤ (runOps (Raindrop.create 0 (-350) 3 DEFAULT_CONFIG 0)
        ([] ++ [TickOp.update])).location.y ∧
      (runOps (Raindrop.create 0 (-350) 3 DEFAULT_CONFIG 0)
        ([] ++ [TickOp.update])).location.y ≤ DEFAULT_CONFIG.height - 3 :=
  c4_spawned_location_bounds DEFAULT_CONFIG 0 (-350) 3 0 hyp_height_three
    hyp_neg500_le hyp_le_neg200 []

/-- C6: a drop created with zero velocity keeps every velocity component at
most `terminalVelocityRate * size` in absolute value, after any sequence of
force applications and updates — on the integrating path (the clamp) and on
the early-return path (velocity untouched) alike. -/
theorem c6_terminal_velocity_bound (config : Config) (x y size : ℚ) (now : ℤ)
    (ht : 0 ≤ config.terminalVelocityRate * size) (ops : List TickOp) :
    |(runOps (Raindrop.create x y size config now) ops).velocity.x|
        ≤ config.terminalVelocityRate * size ∧
      |(runOps (Raindrop.create x y size config now) ops).velocity.y|
        ≤ config.terminalVelocityRate * size := by
  have hbase : VelInv config size (Raindrop.create x y size config now) := by
    refine ⟨rfl, rfl, ?_, ?_⟩ <;>
      · show |(0 : ℚ)| ≤ config.terminalVelocityRate * size
        simpa using ht
  have hind : ∀ (l : List TickOp) (d : Drop), VelInv config size d →
      VelInv config size (runOps d l) := by
    intro l
    induction l with
    | nil => exact fun d h => h
    | cons op rest ih =>
        intro d h
        cases op with
        | applyForce f => exact ih _ h
        | update => exact ih _ (velInv_update ht h)
  obtain ⟨_, _, hx, hy⟩ := hind ops _ hbase
  exact ⟨hx, hy⟩

/-- C6 witness: concrete drop, one force application and one update. -/
theorem c6_witness :
    |(runOps (Raindrop.create 0 (-350) 3 DEFAULT_CONFIG 0)
        [TickOp.applyForce ⟨0, 36⟩, TickOp.update]).velocity.x|
      ≤ DEFAULT_CONFIG.terminalVelocityRate * 3 ∧
    |(runOps (Raindrop.create 0 (-350) 3 DEFAULT_CONFIG 0)
        [TickOp.applyForce ⟨0, 36⟩, TickOp.update]).velocity.y|
      ≤ DEFAULT_CONFIG.terminalVelocityRate * 3 :=
  c6_terminal_velocity_bound DEFAULT_CONFIG 0 (-350) 3 0 hyp_tv_three
    [TickOp.applyForce ⟨0, 36⟩, TickOp.update]

/-- C7: applying the registered force factories in any permutation of the
registration order yields the same drop: every factory sees the same
snapshot (force application never changes location, velocity or mass) and
the contributions are summed into the acceleration. -/
theorem c7_force_order_irrelevant (config : Config) (fs fs' : List Factory)
    (hp : fs.Perm fs') (d : Drop) :
    applyFactories config fs d = applyFactories config fs' d := by
  induction hp generalizing d with
  | nil => rfl
  | cons f _ ih =>
      simp only [applyFactories, List.foldl_cons] at ih ⊢
      exact ih _
  | swap f g l =>
      simp only [applyFactories, List.foldl_cons, snapshot_applyForce]
      rw [applyForce_comm]
  | trans _ _ ih1 ih2 => exact (ih1 d).trans (ih2 d)

/-- C7 witness: gravity then wind equals wind then gravity on a concrete
drop. -/
theorem c7_witness :
    applyFactories DEFAULT_CONFIG [gravityForceFactory, windForceFactory]
        (Raindrop.create 0 (-300) 3 DEFAULT_CONFIG 0)
      = applyFactories DEFAULT_CONFIG [windForceFactory, gravityForceFactory]
        (Raindrop.create 0 (-300) 3 DEFAULT_CONFIG 0) :=
  c7_force_order_irrelevant DEFAULT_CONFIG _ _
    (List.Perm.swap windForceFactory gravityForceFactory [])
    (Raindrop.create 0 (-300) 3 DEFAULT_CONFIG 0)

/-- C8: `normalize` of a zero-magnitude vector leaves it unchanged (no
error, no undefined component), and otherwise divides both components by
the magnitude. -/
theorem c8_normalize_zero_guard (v : RVect) :
    (RVect.magnitude v = 0 → RVect.normalize v = v) ∧
    (RVect.magnitude v ≠ 0 →
      RVect.normalize v = ⟨v.x / RVect.magnitude v, v.y / RVect.magnitude v⟩) := by
  constructor
  · intro h
    simp [RVect.normalize, h]
  · intro h
    simp [RVect.normalize, h, RVect.divideS]

/-- C8 witness: the zero vector is left unchanged; `(3, 4)` is divided by
its magnitude 5. -/
theorem c8_witness :
    RVect.normalize ⟨0, 0⟩ = (⟨0, 0⟩ : RVect) ∧
    RVect.normalize ⟨3, 4⟩ = (⟨3 / 5, 4 / 5⟩ : RVect) := by
  refine ⟨(c8_normalize_zero_guard ⟨0, 0⟩).1 magnitude_zero_vect, ?_⟩
  rw [(c8_normalize_zero_guard ⟨3, 4⟩).2 magnitude_three_four_ne, magnitude_three_four]

/-- C9: `add`, `multiply` and `divide` succeed exactly when the operand is
a vector or a number and fail on anything else, and the numeric edge case
inside `normalize` (zero magnitude) is handled by the guard, never by an
error. -/
theorem c9_error_taxonomy :
    (∀ (v : Vect) (arg : JSArg), arg ≠ JSArg.other →
      (∃ w, addE v arg = Except.ok w) ∧ (∃ w, multiplyE v arg = Except.ok w) ∧
        (∃ w, divideE v arg = Except.ok w)) ∧
    (∀ (v : Vect) (arg : JSArg), arg = JSArg.other →
      (∃ e, addE v arg = Except.error e) ∧ (∃ e, multiplyE v arg = Except.error e) ∧
        (∃ e, divideE v arg = Except.error e)) ∧
    (∀ u : RVect, RVect.normalizeChecked u = some (RVect.normalize u)) := by
  refine ⟨?_, ?_, normalizeChecked_eq⟩
  · intro v arg h
    cases arg with
    | vec w => exact ⟨⟨_, rfl⟩, ⟨_, rfl⟩, ⟨_, rfl⟩⟩
    | num n => exact ⟨⟨_, rfl⟩, ⟨_, rfl⟩, ⟨_, rfl⟩⟩
    | other => exact absurd rfl h
  · intro v arg h
    subst h
    exact ⟨⟨_, rfl⟩, ⟨_, rfl⟩, ⟨_, rfl⟩⟩

/-- C9 witness: a number operand succeeds, a non-vectorizable operand
errors, and `normalizeChecked` succeeds on a concrete vector. -/
theorem c9_witness :
    ((∃ w, addE ⟨1, 2⟩ (JSArg.num 3) = Except.ok w) ∧
      (∃ w, multiplyE ⟨1, 2⟩ (JSArg.num 3) = Except.ok w) ∧
      (∃ w, divideE ⟨1, 2⟩ (JSArg.num 3) = Except.ok w)) ∧
    ((∃ e, addE ⟨1, 2⟩ JSArg.other = Except.error e) ∧
      (∃ e, multiplyE ⟨1, 2⟩ JSArg.other = Except.error e) ∧
      (∃ e, divideE ⟨1, 2⟩ JSArg.other = Except.error e)) ∧
    RVect.normalizeChecked ⟨1, 0⟩ = some (RVect.normalize ⟨1, 0⟩) :=
  ⟨c9_error_taxonomy.1 ⟨1, 2⟩ (JSArg.num 3) hyp_num_ne_other,
   c9_error_taxonomy.2.1 ⟨1, 2⟩ JSArg.other rfl,
   c9_error_taxonomy.2.2 ⟨1, 0⟩⟩

/-- C10: spawned sizes are in `[3, 4]` (so masses are at least 9 and the
division by the mass in `applyForce` is by a nonzero divisor), the division
inside `normalize` — the only division the drag force performs — is guarded
by the zero-magnitude check, and the operands fed into `__vectorize` by the
gravity and drag pipeline (a force vector, a scalar) always vectorize. -/
theorem c10_division_safety :
    (∀ r : ℚ, 0 ≤ r → r ≤ 1 → 3 ≤ getRandom r 3 4 ∧ getRandom r 3 4 ≤ 4) ∧
    (∀ (d : Drop) (f : Vect), d.mass = d.size * d.size → 3 ≤ d.size →
      Raindrop.applyForceChecked d f = some (Raindrop.applyForce d f)) ∧
    (∀ (config : Config) (state : StateR),
      dragForceFactoryChecked config state = some (dragForceFactory config state)) ∧
    (∀ (config : Config) (state : RState),
      vectorize (JSArg.vec (gravityForceFactory config state))
        = Except.ok (gravityForceFactory config state)) ∧
    (∀ n : ℚ, vectorize (JSArg.num n) = Except.ok ⟨n, n⟩) := by
  refine ⟨?_, ?_, ?_, fun _ _ => rfl, fun _ => rfl⟩
  · intro r h0 h1
    have h3 : (3 : ℤ) ≤ round (r * (4 - 3) + 3) := by
      rw [round_eq]
      apply Int.le_floor.mpr
      push_cast
      linarith
    have h4 : round (r * (4 - 3) + 3) ≤ (4 : ℤ) := by
      rw [round_eq]
      have hlt : r * (4 - 3) + 3 + 1 / 2 < ((5 : ℤ) : ℚ) := by
        push_cast
        linarith
      have := Int.floor_lt.mpr hlt
      omega
    unfold getRandom
    exact ⟨by exact_mod_cast h3, by exact_mod_cast h4⟩
  · intro d f hm hs
    have hmass : d.mass ≠ 0 := by
      rw [hm]
      have hpos : (0 : ℚ) < d.size := by linarith
      exact ne_of_gt (mul_pos hpos hpos)
    simp [Raindrop.applyForceChecked, Vector.divideSChecked, hmass, Raindrop.applyForce]
  · intro config state
    simp [dragForceFactoryChecked, dragForceFactory, normalizeChecked_eq]

/-- C10 witness: concrete draw, drop, force and states. -/
theorem c10_witness :
    (3 ≤ getRandom (1/2) 3 4 ∧ getRandom (1/2) 3 4 ≤ 4) ∧
    Raindrop.applyForceChecked (Raindrop.create 0 (-300) 3 DEFAULT_CONFIG 0) ⟨0, 8⟩
      = some (Raindrop.applyForce (Raindrop.create 0 (-300) 3 DEFAULT_CONFIG 0) ⟨0, 8⟩) ∧
    dragForceFactoryChecked DEFAULT_CONFIG ⟨⟨0, 0⟩, ⟨0, 0⟩, 9⟩
      = some (dragForceFactory DEFAULT_CONFIG ⟨⟨0, 0⟩, ⟨0, 0⟩, 9⟩) ∧
    vectorize (JSArg.vec (gravityForceFactory DEFAULT_CONFIG ⟨⟨0, 0⟩, ⟨0, 0⟩, 9⟩))
      = Except.ok (gravityForceFactory DEFAULT_CONFIG ⟨⟨0, 0⟩, ⟨0, 0⟩, 9⟩) ∧
    vectorize (JSArg.num 5) = Except.ok ⟨5, 5⟩ :=
  ⟨c10_division_safety.1 (1/2) hyp_half_nonneg hyp_half_le_one,
   c10_division_safety.2.1 (Raindrop.create 0 (-300) 3 DEFAULT_CONFIG 0) ⟨0, 8⟩ rfl
     (le_refl 3),
   c10_division_safety.2.2.1 DEFAULT_CONFIG ⟨⟨0, 0⟩, ⟨0, 0⟩, 9⟩,
   c10_division_safety.2.2.2.1 DEFAULT_CONFIG ⟨⟨0, 0⟩, ⟨0, 0⟩, 9⟩,
   c10_division_safety.2.2.2.2 5⟩

end Rain
